import Mathlib

/-!
Shallow embedding of `route53/resource_record_set.py`: the `ResourceRecordSet`
base class, its ten record-type variants, and its methods (`__init__`,
`__str__`, `is_modified`, `delete`, `save`, `is_alias_record_set`).

Python values that flow through the snapshot dictionary and through `getattr`
are modelled by the type `PyVal`; Python `None` is `PyVal.none`, object
references to the connection collaborator are modelled by an identity
(`PyVal.conn id`).  Methods that can raise return `Except PyErr _`.
-/

/-- Python runtime errors that the embedded methods can raise. -/
inductive PyErr where
  | valueError
  | attributeError
deriving DecidableEq, Repr

/-- Python values stored in the `_initial_vals` snapshot dict and produced by
`getattr`.  `conn n` is a reference to a connection object with identity `n`;
`strlist` models the `records` list of strings. -/
inductive PyVal where
  | none : PyVal
  | bool : Bool → PyVal
  | int : Int → PyVal
  | str : String → PyVal
  | strlist : List String → PyVal
  | conn : Nat → PyVal
deriving DecidableEq, Repr

/-- Python truthiness of a `PyVal` (used by `if x:` and by `or`). -/
def pyTruthy : PyVal → Bool
  | PyVal.none => false
  | PyVal.bool b => b
  | PyVal.int n => decide (n ≠ 0)
  | PyVal.str s => decide (s ≠ "")
  | PyVal.strlist l => decide (l ≠ [])
  | PyVal.conn _ => true

/-- Python `a or b`: returns `a` when `a` is truthy, else `b`. -/
def pyOr (a b : PyVal) : PyVal :=
  if pyTruthy a then a else b

/-- The connection argument: `Option.none` models Python `None`, `some n` a
connection object with identity `n`. -/
def pyOfConn : Option Nat → PyVal
  | Option.none => PyVal.none
  | Option.some n => PyVal.conn n

/-- An optional integer argument (`ttl`) as a Python value. -/
def pyOfOptInt : Option Int → PyVal
  | Option.none => PyVal.none
  | Option.some n => PyVal.int n

/-- An optional string argument (alias fields) as a Python value. -/
def pyOfOptStr : Option String → PyVal
  | Option.none => PyVal.none
  | Option.some s => PyVal.str s

/-- The closed set of record-type variants: the ten subclasses of
`ResourceRecordSet` in the source, distinguished by `rrset_type`. -/
inductive RRSetType where
  | A | AAAA | CNAME | MX | NS | PTR | SOA | SPF | SRV | TXT
deriving DecidableEq, Repr

/-- The class name of each variant, as used by `__str__` via
`self.__class__.__name__`. -/
def class_name : RRSetType → String
  | RRSetType.A => "AResourceRecordSet"
  | RRSetType.AAAA => "AAAAResourceRecordSet"
  | RRSetType.CNAME => "CNAMEResourceRecordSet"
  | RRSetType.MX => "MXResourceRecordSet"
  | RRSetType.NS => "NSResourceRecordSet"
  | RRSetType.PTR => "PTRResourceRecordSet"
  | RRSetType.SOA => "SOAResourceRecordSet"
  | RRSetType.SPF => "SPFResourceRecordSet"
  | RRSetType.SRV => "SRVResourceRecordSet"
  | RRSetType.TXT => "TXTResourceRecordSet"

/-- The state of a `ResourceRecordSet` instance.  The alias fields exist only
on `AResourceRecordSet` instances (`rrtype = A`); for other variants they are
carried as `Option.none` and `getattrRS` treats them as absent.
`initial_vals` is the `_initial_vals` snapshot dict, kept in insertion
order. -/
structure ResourceRecordSet where
  rrtype : RRSetType
  connection : Option Nat
  zone_id : String
  name : String
  ttl : Option Int
  records : List String
  alias_hosted_zone_id : Option String
  alias_dns_name : Option String
  initial_vals : List (String × PyVal)
deriving DecidableEq, Repr

/-- `ResourceRecordSet.__init__`: stores the arguments, normalising `ttl` by
`int(ttl) if ttl else None` (so a `ttl` of `0` or `None` is stored as `None`),
and captures `_initial_vals` from the raw constructor arguments. -/
def ResourceRecordSet.construct (rt : RRSetType) (connection : Option Nat)
    (zone_id name : String) (ttl : Option Int) (records : List String) :
    ResourceRecordSet :=
  { rrtype := rt
    connection := connection
    zone_id := zone_id
    name := name
    ttl :=
      match ttl with
      | Option.some v => if v = 0 then Option.none else Option.some v
      | Option.none => Option.none
    records := records
    alias_hosted_zone_id := Option.none
    alias_dns_name := Option.none
    initial_vals :=
      [("connection", pyOfConn connection),
       ("zone_id", PyVal.str zone_id),
       ("name", PyVal.str name),
       ("ttl", pyOfOptInt ttl),
       ("records", PyVal.strlist records)] }

/-- `AResourceRecordSet.__init__`: calls the base constructor with
`rrset_type = A`, then stores the alias fields and `update`s the snapshot
dict with them (appended in insertion order, the keys being new). -/
def AResourceRecordSet.construct (alias_hosted_zone_id alias_dns_name : Option String)
    (connection : Option Nat) (zone_id name : String) (ttl : Option Int)
    (records : List String) : ResourceRecordSet :=
  let base := ResourceRecordSet.construct RRSetType.A connection zone_id name ttl records
  { base with
    alias_hosted_zone_id := alias_hosted_zone_id
    alias_dns_name := alias_dns_name
    initial_vals := base.initial_vals ++
      [("alias_hosted_zone_id", pyOfOptStr alias_hosted_zone_id),
       ("alias_dns_name", pyOfOptStr alias_dns_name)] }

/-- `__str__`: renders as `<ClassName: name>`. -/
def str_repr (r : ResourceRecordSet) : String :=
  "<" ++ class_name r.rrtype ++ ": " ++ r.name ++ ">"

/-- Python `getattr(self, key)` on a record-set instance, for attribute names
that can appear in the comparison loop: returns `Option.none` (an
`AttributeError`) for names the instance does not have.  The alias attributes
exist only on A-variant instances. -/
def getattrRS (r : ResourceRecordSet) (key : String) : Option PyVal :=
  if key = "connection" then Option.some (pyOfConn r.connection)
  else if key = "zone_id" then Option.some (PyVal.str r.zone_id)
  else if key = "name" then Option.some (PyVal.str r.name)
  else if key = "ttl" then Option.some (pyOfOptInt r.ttl)
  else if key = "records" then Option.some (PyVal.strlist r.records)
  else if key = "alias_hosted_zone_id" ∧ r.rrtype = RRSetType.A then
    Option.some (pyOfOptStr r.alias_hosted_zone_id)
  else if key = "alias_dns_name" ∧ r.rrtype = RRSetType.A then
    Option.some (pyOfOptStr r.alias_dns_name)
  else Option.none

/-- Python tuple-unpacking `key, val = s` of a string `s`: a string is a
sequence of one-character strings, so unpacking succeeds exactly when `s` has
two characters, and raises `ValueError` otherwise. -/
def strUnpack2 (s : String) : Except PyErr (String × String) :=
  match s.data with
  | [a, b] => Except.ok (String.singleton a, String.singleton b)
  | _ => Except.error PyErr.valueError

/-- The loop body of `is_modified`.  The source writes
`for key, val in self._initial_vals:` — iterating a dict yields its KEYS, so
each iteration tuple-unpacks a key string into `key, val`; when that succeeds
(a two-character key) the loop compares `getattr(self, key) != val` and
returns `True` on mismatch, and after the loop returns `False`. -/
def is_modified_loop (r : ResourceRecordSet) : List String → Except PyErr Bool
  | [] => Except.ok false
  | k :: rest =>
    match strUnpack2 k with
    | Except.error e => Except.error e
    | Except.ok (key, val) =>
      match getattrRS r key with
      | Option.none => Except.error PyErr.attributeError
      | Option.some cur =>
        if cur ≠ PyVal.str val then Except.ok true
        else is_modified_loop r rest

/-- `is_modified`: iterates over the `_initial_vals` dict (which yields its
keys, in insertion order). -/
def is_modified (r : ResourceRecordSet) : Except PyErr Bool :=
  is_modified_loop r (r.initial_vals.map Prod.fst)

/-- `is_alias_record_set`, with the dynamic dispatch of the source: the
A-variant override returns `self.alias_hosted_zone_id or self.alias_dns_name`
(a Python `or` of the two values, NOT coerced to a bool); the base method,
used by every other variant, returns `False`. -/
def is_alias_record_set (r : ResourceRecordSet) : PyVal :=
  match r.rrtype with
  | RRSetType.A =>
      pyOr (pyOfOptStr r.alias_hosted_zone_id) (pyOfOptStr r.alias_dns_name)
  | _ => PyVal.bool false

/-- Whether an optional string is present and non-empty. -/
def optStrNonempty : Option String → Bool
  | Option.none => false
  | Option.some s => decide (s ≠ "")

/-- Modelled from the spec: the `ChangeSet` collaborator is not under `src/`
(only `route53/resource_record_set.py` is).  Per the spec it is constructed
with `(connection, hostedZoneId)` and exposes `addChange(action, recordSet)`,
batching the changes. -/
structure ChangeSet where
  connection : Option Nat
  hosted_zone_id : String
  changes : List (String × ResourceRecordSet)
deriving DecidableEq, Repr

/-- Modelled from the spec: `ChangeSet.addChange(action, recordSet)` appends
one `(action, recordSet)` change to the batch. -/
def ChangeSet.add_change (cs : ChangeSet) (action : String)
    (rr : ResourceRecordSet) : ChangeSet :=
  { cs with changes := cs.changes ++ [(action, rr)] }

/-- Modelled from the spec: `connection.changeResourceRecordSets(changeSet)`
is an external network call, not under `src/`; the spec says `delete` passes
the change set unmodified to it and returns that call's response.  The
response is modelled as a receipt carrying exactly the change set the
connection received. -/
def change_resource_record_sets (cset : ChangeSet) : ChangeSet :=
  cset

/-- The observable outcome of a record-set method that may talk to the
connection: the instance state afterwards, the list of change sets passed to
`connection._change_resource_record_sets` (in order), and the returned
value. -/
structure MethodOutcome (α : Type) where
  self_after : ResourceRecordSet
  conn_calls : List ChangeSet
  ret : α
deriving DecidableEq, Repr

/-- `delete`: builds `ChangeSet(connection=self.connection,
hosted_zone_id=self.zone_id)`, adds one `('DELETE', self)` change, submits it
via the connection and returns the call's response.  No field of `self` is
assigned. -/
def ResourceRecordSet.delete (r : ResourceRecordSet) : MethodOutcome ChangeSet :=
  let cset : ChangeSet :=
    { connection := r.connection, hosted_zone_id := r.zone_id, changes := [] }
  let cset := cset.add_change "DELETE" r
  { self_after := r
    conn_calls := [cset]
    ret := change_resource_record_sets cset }

/-- `save`: the body is `pass` (with a TODO comment) — no assignment, no
connection call, returns `None`. -/
def ResourceRecordSet.save (r : ResourceRecordSet) : MethodOutcome PyVal :=
  { self_after := r
    conn_calls := []
    ret := PyVal.none }

/-- Mutating an instance field after construction: `r.name = n` leaves the
snapshot untouched. -/
def set_name (r : ResourceRecordSet) (n : String) : ResourceRecordSet :=
  { r with name := n }

/-!
Theorems for the claims.
-/

/-- Claim C1: the claim says `is_modified()` immediately after construction
returns `false` without raising.  The code instead raises `ValueError` on
every call: `for key, val in self._initial_vals` iterates the dict's KEYS and
tuple-unpacks each key string, and no snapshot key has exactly two
characters.  This theorem evaluates the code on every freshly constructed
instance (base constructor for any variant tag, and the A-variant
constructor): the call raises `ValueError`. -/
theorem C1_fresh_is_modified_raises (rt : RRSetType) (c : Option Nat)
    (z n : String) (ttl : Option Int) (recs : List String)
    (hz dn : Option String) :
    is_modified (ResourceRecordSet.construct rt c z n ttl recs) =
      Except.error PyErr.valueError ∧
    is_modified (AResourceRecordSet.construct hz dn c z n ttl recs) =
      Except.error PyErr.valueError :=
  ⟨rfl, rfl⟩

/-- Claim C2: the claim says `is_modified()` returns `true` once a
snapshot-captured field has been mutated, comparing each snapshot name/value
pair.  The code never reaches any comparison: it raises `ValueError` while
unpacking the first dict key, also on instances whose `name` was mutated
after construction (shown for the A-variant and for every base variant
tag). -/
theorem C2_mutated_is_modified_raises (hz dn : Option String) (c : Option Nat)
    (z n : String) (ttl : Option Int) (recs : List String) (n2 : String) :
    is_modified (set_name (AResourceRecordSet.construct hz dn c z n ttl recs) n2) =
      Except.error PyErr.valueError ∧
    ∀ rt : RRSetType,
      is_modified (set_name (ResourceRecordSet.construct rt c z n ttl recs) n2) =
        Except.error PyErr.valueError :=
  ⟨rfl, fun _ => rfl⟩

/-- Claim C3: `delete` builds a `ChangeSet` whose `hosted_zone_id` is the
record set's zone id (and whose connection is the record set's connection),
appends exactly one `("DELETE", self)` change, passes exactly that change set
(unmodified) to the connection's `_change_resource_record_sets` as its only
call, returns that call's response, and leaves the instance state — snapshot
included — unchanged. -/
theorem C3_delete_spec (r : ResourceRecordSet) :
    r.delete.conn_calls =
      [{ connection := r.connection, hosted_zone_id := r.zone_id,
         changes := [("DELETE", r)] }] ∧
    r.delete.ret =
      change_resource_record_sets
        { connection := r.connection, hosted_zone_id := r.zone_id,
          changes := [("DELETE", r)] } ∧
    r.delete.self_after = r :=
  ⟨rfl, rfl, rfl⟩

/-- Claim C4 counterexample: on the A-variant instance constructed with
`alias_hosted_zone_id = "Z2EL"` (non-empty), `is_alias_record_set()` returns
the string `"Z2EL"` — the value of `self.alias_hosted_zone_id or
self.alias_dns_name` — which is not the boolean `True` the claim requires. -/
theorem C4_counterexample :
    is_alias_record_set
      (AResourceRecordSet.construct (Option.some "Z2EL") Option.none
        (Option.some 1) "Z123" "www.example.com" Option.none []) =
      PyVal.str "Z2EL" ∧
    optStrNonempty
      (AResourceRecordSet.construct (Option.some "Z2EL") Option.none
        (Option.some 1) "Z123" "www.example.com" Option.none []).alias_hosted_zone_id =
      true ∧
    PyVal.str "Z2EL" ≠ PyVal.bool true := by
  decide

/-- Claim C4, amended: on every A-variant instance `is_alias_record_set()`
returns a TRUTHY value if and only if `alias_hosted_zone_id` is non-empty or
`alias_dns_name` is non-empty, and a falsy value when both are empty/absent —
but the returned value is `x or y` itself (a string or `None`), not the
booleans `True`/`False`. -/
theorem C4_alias_truthiness (r : ResourceRecordSet)
    (h : r.rrtype = RRSetType.A) :
    pyTruthy (is_alias_record_set r) =
      (optStrNonempty r.alias_hosted_zone_id ||
        optStrNonempty r.alias_dns_name) := by
  obtain ⟨rt, c, z, n, t, recs, hz, dn, iv⟩ := r
  simp only at h
  subst h
  cases hz with
  | none =>
    cases dn with
    | none => rfl
    | some d =>
      by_cases hd : d = "" <;>
        simp [is_alias_record_set, pyOr, pyTruthy, pyOfOptStr, optStrNonempty, hd]
  | some s =>
    by_cases hs : s = ""
    · cases dn with
      | none =>
        simp [is_alias_record_set, pyOr, pyTruthy, pyOfOptStr, optStrNonempty, hs]
      | some d =>
        by_cases hd : d = "" <;>
          simp [is_alias_record_set, pyOr, pyTruthy, pyOfOptStr, optStrNonempty,
            hs, hd]
    · simp [is_alias_record_set, pyOr, pyTruthy, pyOfOptStr, optStrNonempty, hs]

/-- Witness for C4: the amended theorem applied to a concrete alias-mode
A-variant instance. -/
theorem C4_alias_truthiness_witness :
    pyTruthy (is_alias_record_set
      (AResourceRecordSet.construct (Option.some "Z2EL") Option.none
        (Option.some 1) "Z123" "www.example.com" Option.none [])) =
      (optStrNonempty
        (AResourceRecordSet.construct (Option.some "Z2EL") Option.none
          (Option.some 1) "Z123" "www.example.com" Option.none []).alias_hosted_zone_id ||
       optStrNonempty
        (AResourceRecordSet.construct (Option.some "Z2EL") Option.none
          (Option.some 1) "Z123" "www.example.com" Option.none []).alias_dns_name) :=
  C4_alias_truthiness
    (AResourceRecordSet.construct (Option.some "Z2EL") Option.none
      (Option.some 1) "Z123" "www.example.com" Option.none []) rfl

/-- Claim C5: on a freshly constructed instance of any non-A variant,
`is_alias_record_set()` is the inherited base method and returns the boolean
`False`, whatever the field values. -/
theorem C5_nonA_not_alias (rt : RRSetType) (c : Option Nat) (z n : String)
    (ttl : Option Int) (recs : List String) (h : rt ≠ RRSetType.A) :
    is_alias_record_set (ResourceRecordSet.construct rt c z n ttl recs) =
      PyVal.bool false := by
  cases rt
  case A => exact absurd rfl h
  all_goals rfl

/-- Witness for C5: the theorem applied to a concrete TXT instance. -/
theorem C5_nonA_not_alias_witness :
    is_alias_record_set
      (ResourceRecordSet.construct RRSetType.TXT (Option.some 1) "Z123"
        "www.example.com" (Option.some 300) ["v=spf1 -all"]) =
      PyVal.bool false :=
  C5_nonA_not_alias RRSetType.TXT (Option.some 1) "Z123" "www.example.com"
    (Option.some 300) ["v=spf1 -all"] (by decide)

/-- Claim C6: the stored `ttl` is `None` for a constructor argument of `None`
or `0`, and is the argument itself for a positive integer argument
(`int(ttl) if ttl else None`). -/
theorem C6_ttl_normalisation (rt : RRSetType) (c : Option Nat) (z n : String)
    (recs : List String) :
    (ResourceRecordSet.construct rt c z n Option.none recs).ttl = Option.none ∧
    (ResourceRecordSet.construct rt c z n (Option.some 0) recs).ttl = Option.none ∧
    ∀ k : Int, 0 < k →
      (ResourceRecordSet.construct rt c z n (Option.some k) recs).ttl =
        Option.some k := by
  refine ⟨rfl, rfl, fun k hk => ?_⟩
  have hk0 : k ≠ 0 := by omega
  simp [ResourceRecordSet.construct, hk0]

/-- Witness for C6: positive-ttl part applied at ttl = 300. -/
theorem C6_ttl_normalisation_witness :
    (ResourceRecordSet.construct RRSetType.MX (Option.some 1) "Z123"
      "mail.example.com" (Option.some 300) ["10 mx.example.com."]).ttl =
      Option.some 300 :=
  (C6_ttl_normalisation RRSetType.MX (Option.some 1) "Z123" "mail.example.com"
    ["10 mx.example.com."]).2.2 300 (by decide)

/-- Claim C7 counterexample: the constructor performs no validation.  Called
with a null connection and empty `zone_id` and `name` — violating all three
stated constraints — it still produces a normally constructed instance,
storing those arguments and capturing the full snapshot. -/
theorem C7_counterexample :
    (ResourceRecordSet.construct RRSetType.TXT Option.none "" "" Option.none
      []).connection = Option.none ∧
    (ResourceRecordSet.construct RRSetType.TXT Option.none "" "" Option.none
      []).zone_id = "" ∧
    (ResourceRecordSet.construct RRSetType.TXT Option.none "" "" Option.none
      []).name = "" ∧
    (ResourceRecordSet.construct RRSetType.TXT Option.none "" "" Option.none
      []).initial_vals =
      [("connection", PyVal.none), ("zone_id", PyVal.str ""),
       ("name", PyVal.str ""), ("ttl", PyVal.none),
       ("records", PyVal.strlist [])] := by
  decide

/-- Claim C7, amended: the constructor does not enforce the stated
constraints; every call — any connection value (null included) and any
strings (empty included) — produces a normally constructed instance that
stores exactly the given arguments. -/
theorem C7_no_validation (rt : RRSetType) (c : Option Nat) (z n : String)
    (ttl : Option Int) (recs : List String) :
    (ResourceRecordSet.construct rt c z n ttl recs).connection = c ∧
    (ResourceRecordSet.construct rt c z n ttl recs).zone_id = z ∧
    (ResourceRecordSet.construct rt c z n ttl recs).name = n ∧
    (ResourceRecordSet.construct rt c z n ttl recs).records = recs :=
  ⟨rfl, rfl, rfl, rfl⟩

/-- Claim C8: `save()` is a no-op — the instance state (snapshot included) is
unchanged, no change set is passed to the connection, and the return value is
`None`. -/
theorem C8_save_noop (r : ResourceRecordSet) :
    r.save.self_after = r ∧
    r.save.conn_calls = [] ∧
    r.save.ret = PyVal.none ∧
    r.save.self_after.initial_vals = r.initial_vals :=
  ⟨rfl, rfl, rfl, rfl⟩

/-- Claim C9: `__str__` renders every instance as `<ClassName: name>`; in
particular a CNAME-variant instance named "www.example.com" renders as
`<CNAMEResourceRecordSet: www.example.com>`. -/
theorem C9_str_rendering (c : Option Nat) (z : String) (ttl : Option Int)
    (recs : List String) (r : ResourceRecordSet) :
    str_repr (ResourceRecordSet.construct RRSetType.CNAME c z
      "www.example.com" ttl recs) =
      "<CNAMEResourceRecordSet: www.example.com>" ∧
    str_repr r = "<" ++ class_name r.rrtype ++ ": " ++ r.name ++ ">" :=
  ⟨rfl, rfl⟩

/-- Claim C10: the snapshot stores the RAW `ttl` constructor argument while
the instance stores the normalised value; with a `ttl` argument of `0` the
snapshot's `ttl` entry is the integer `0` while the live `ttl` attribute is
`None`, so the fresh instance's snapshot does not match its live fields. -/
theorem C10_snapshot_raw_ttl (rt : RRSetType) (c : Option Nat) (z n : String)
    (recs : List String) (ttl : Option Int) :
    (ResourceRecordSet.construct rt c z n ttl recs).initial_vals.lookup "ttl" =
      Option.some (pyOfOptInt ttl) ∧
    (ResourceRecordSet.construct rt c z n (Option.some 0) recs).initial_vals.lookup "ttl" =
      Option.some (PyVal.int 0) ∧
    (ResourceRecordSet.construct rt c z n (Option.some 0) recs).ttl =
      Option.none ∧
    getattrRS (ResourceRecordSet.construct rt c z n (Option.some 0) recs) "ttl" =
      Option.some PyVal.none ∧
    Option.some PyVal.none ≠ Option.some (PyVal.int 0) :=
  ⟨rfl, rfl, rfl, rfl, by decide⟩
